import Mathlib

/-!
Shallow embedding of the SWEN AI routing engine core
(src/ai-engine/main.py, class AIRoutingEngine).

Modelling conventions:
* Python floats are modelled as exact rationals.
* Python dicts keyed by provider name are modelled as association lists in
  insertion order; the source always builds them with unique keys, which
  theorems assume through a Nodup hypothesis where a key lookup matters.
* The ML predictor (`_predict_optimal_provider`) is an opaque parameter
  `ml : Workload → ProviderData → ℚ`, exactly its call signature in the
  source.
-/

/-- The `Workload` dataclass (main.py lines 85-94). -/
structure Workload where
  id : String
  cpu_cores : ℤ
  memory_gb : ℤ
  priority : String
  cost_sensitivity : ℚ
  latency_sensitivity : ℚ
  estimated_duration_hours : ℚ
deriving DecidableEq, Repr

/-- One provider state dict as produced by `_get_default_provider_states` /
`_fetch_telemetry_data` (main.py lines 893-916): the fields the core reads. -/
structure ProviderData where
  region : String
  cost_per_hour : ℚ
  latency_ms : ℚ
  cpu_utilization : ℚ
  memory_utilization : ℚ
  available_instances : ℤ
  spot_available : Bool
  credits_available : ℚ
deriving DecidableEq, Repr

/-- `max(1, workload.cpu_cores // 2)` (main.py lines 925, 1037, 999);
Python `//` is floor division, hence `Int.fdiv`. -/
def required_instances (w : Workload) : ℤ :=
  max 1 (Int.fdiv w.cpu_cores 2)

/-- `AIRoutingEngine._calculate_workload_cost` (main.py lines 918-940). -/
def calculate_workload_cost (w : Workload) (provider_data : ProviderData) : ℚ :=
  let base_cost_per_hour := provider_data.cost_per_hour
  let total_cost := base_cost_per_hour * ((required_instances w : ℤ) : ℚ)
  let total_cost := if provider_data.spot_available then total_cost * (1 - 0.6) else total_cost
  let total_cost :=
    if 0 < provider_data.credits_available then
      total_cost * (1 - min 0.2 (provider_data.credits_available / 1000))
    else total_cost
  total_cost

/-- `AIRoutingEngine._check_cost_threshold` (main.py lines 942-949):
`true` means the cost is within the threshold (can auto-approve). -/
def check_cost_threshold (cost_threshold workload_cost : ℚ) : Bool :=
  if workload_cost > cost_threshold then false else true

/-- Python `max(items, key=lambda x: x[1])` over a nonempty list: scan left
to right, replace the current best only on a strictly greater key, so ties
keep the earliest element. -/
def pyMaxAux (acc : String × ℚ) : List (String × ℚ) → String × ℚ
  | [] => acc
  | y :: ys => pyMaxAux (if acc.2 < y.2 then y else acc) ys

/-- Python `max(d.items(), key=lambda x: x[1])`; `none` models the
`ValueError` raised on an empty dict. -/
def pyMax : List (String × ℚ) → Option (String × ℚ)
  | [] => none
  | x :: xs => some (pyMaxAux x xs)

/-- Python `max(list_of_floats)` for a nonempty list (value only). -/
def listMax : List ℚ → ℚ
  | [] => 0
  | x :: xs => xs.foldl max x

/-- The per-provider combined score dict built in
`calculate_optimal_placement` (main.py lines 844-848):
`0.7 * (1 / (cost + 0.001)) + 0.3 * ml_score`. -/
def combined_scores (ml : Workload → ProviderData → ℚ) (w : Workload)
    (providers : List (String × ProviderData)) : List (String × ℚ) :=
  providers.map fun nd =>
    (nd.1, 0.7 * (1 / (calculate_workload_cost w nd.2 + 0.001)) + 0.3 * ml w nd.2)

/-- Dict read with a rational value (`costs[name]`, `ml_predictions[name]`);
the default is never reached on the source's inputs, where the key is
always present. -/
def lookupQ (l : List (String × ℚ)) (k : String) : ℚ :=
  (List.lookup k l).getD 0

/-- The tuple assembled by `calculate_optimal_placement` together with the
intermediate values the decision log records (main.py lines 850-883). -/
structure Placement where
  provider : String
  region : String
  confidence_score : ℚ
  estimated_cost : ℚ
  cost_confidence : ℚ
  ml_confidence : ℚ
deriving DecidableEq, Repr

/-- The `costs` dict of `calculate_optimal_placement` (main.py lines
831-836). -/
def placement_costs (w : Workload) (providers : List (String × ProviderData)) :
    List (String × ℚ) :=
  providers.map fun nd => (nd.1, calculate_workload_cost w nd.2)

/-- The `ml_predictions` dict of `calculate_optimal_placement` (main.py
lines 832-840). -/
def placement_predictions (ml : Workload → ProviderData → ℚ) (w : Workload)
    (providers : List (String × ProviderData)) : List (String × ℚ) :=
  providers.map fun nd => (nd.1, ml w nd.2)

/-- `other_costs` (main.py line 856): costs of every provider other than
the selected one. -/
def other_costs (w : Workload) (providers : List (String × ProviderData))
    (provider_name : String) : List ℚ :=
  ((placement_costs w providers).filter fun nd => nd.1 != provider_name).map Prod.snd

/-- `cost_confidence` (main.py lines 857-860): `0.5` with no other
provider, otherwise `min(1.0, (max(other_costs) - estimated_cost) /
estimated_cost * 2)` -- note the source has no lower clamp. -/
def placement_cost_confidence (w : Workload)
    (providers : List (String × ProviderData)) (provider_name : String) : ℚ :=
  let estimated_cost := lookupQ (placement_costs w providers) provider_name
  if (other_costs w providers provider_name).isEmpty then 0.5
  else min 1 ((listMax (other_costs w providers provider_name) - estimated_cost)
                / estimated_cost * 2)

/-- `AIRoutingEngine.calculate_optimal_placement` (main.py lines 817-883),
parameterised by the provider states and the opaque ML predictor.
`none` models the `ValueError` from `max` on an empty provider dict. -/
def calculate_optimal_placement (ml : Workload → ProviderData → ℚ) (w : Workload)
    (providers : List (String × ProviderData)) : Option Placement :=
  match pyMax (combined_scores ml w providers) with
  | none => none
  | some best =>
    let provider_name := best.1
    let estimated_cost := lookupQ (placement_costs w providers) provider_name
    let cost_confidence := placement_cost_confidence w providers provider_name
    let ml_confidence := lookupQ (placement_predictions ml w providers) provider_name
    match List.lookup provider_name providers with
    | none => none
    | some pd =>
      some { provider := provider_name
             region := pd.region
             confidence_score := 0.7 * cost_confidence + 0.3 * ml_confidence
             estimated_cost := estimated_cost
             cost_confidence := cost_confidence
             ml_confidence := ml_confidence }

/-- One per-provider entry of the `changes` dict built by
`generate_terraform_changes` (main.py lines 1042-1103): the scaling fields
the C6/C9 claims are about (resource create/destroy flags and instance
type are orthogonal to all claims and are not modelled). -/
structure Directive where
  provider_label : String
  region : String
  desired_capacity : ℤ
  min_capacity : ℤ
  max_capacity : ℤ
  action : String
deriving DecidableEq, Repr

/-- `AIRoutingEngine.generate_terraform_changes` (main.py lines 1023-1108):
the `changes` dict of the emitted plan. For a provider other than
`aws`/`alibaba` the source leaves `changes` empty. -/
def generate_terraform_changes (w : Workload) (provider : String) (region : String) :
    List (String × Directive) :=
  let required := required_instances w
  if provider = "aws" then
    [("aws",
      { provider_label := "aws", region := region, desired_capacity := required,
        min_capacity := required, max_capacity := required * 2, action := "scale_up" }),
     ("alibaba",
      { provider_label := "alicloud", region := region, desired_capacity := 0,
        min_capacity := 0, max_capacity := 0, action := "scale_down" })]
  else if provider = "alibaba" then
    [("aws",
      { provider_label := "aws", region := region, desired_capacity := 0,
        min_capacity := 0, max_capacity := 0, action := "scale_down" }),
     ("alibaba",
      { provider_label := "alicloud", region := region, desired_capacity := required,
        min_capacity := required, max_capacity := required * 2, action := "scale_up" })]
  else []

/-- The approval dict built by `_queue_for_approval` (main.py lines
1438-1449); the timestamp is not modelled, and the formatted dollar
amounts inside `reason` are abstracted to the bare reason string. -/
structure ApprovalRequest where
  workload_id : String
  estimated_savings : ℚ
  aws_cost : ℚ
  alibaba_cost : ℚ
  recommended_provider : String
  status : String
  reason : String
deriving DecidableEq, Repr

/-- The switch-request dict built by `_request_switch_approval` (main.py
lines 1690-1698); timestamp and the formatted reason string are not
modelled. -/
structure SwitchRequest where
  workload_id : String
  current_provider : String
  new_provider : String
  estimated_savings : ℚ
  status : String
deriving DecidableEq, Repr

/-- An element of `self.pending_workloads`, which in the source holds both
kinds of dicts; both carry a `workload_id` and a `status` key. -/
inductive PendingItem where
  | approval (r : ApprovalRequest)
  | providerSwitch (s : SwitchRequest)
deriving DecidableEq, Repr

def PendingItem.workloadId : PendingItem → String
  | .approval r => r.workload_id
  | .providerSwitch s => s.workload_id

def PendingItem.status : PendingItem → String
  | .approval r => r.status
  | .providerSwitch s => s.status

/-- `workload['status'] = new_status` on one pending dict. -/
def PendingItem.setStatus : PendingItem → String → PendingItem
  | .approval r, st => .approval { r with status := st }
  | .providerSwitch s, st => .providerSwitch { s with status := st }

/-- The engine instance fields the modelled operations read and write
(`__init__`, main.py lines 107-116). -/
structure EngineState where
  auto_deploy_enabled : Bool
  approval_threshold : ℚ
  cost_threshold : ℚ
  aws_simulated_cost : ℚ
  alibaba_simulated_cost : ℚ
  pending_workloads : List PendingItem
deriving DecidableEq, Repr

/-- `AIRoutingEngine._get_aws_cost` (main.py lines 137-140). -/
def get_aws_cost (st : EngineState) : ℚ := st.aws_simulated_cost

/-- `AIRoutingEngine._get_alibaba_cost` (main.py lines 142-145). -/
def get_alibaba_cost (st : EngineState) : ℚ := st.alibaba_simulated_cost

/-- The approval request built by `_queue_for_approval`
(main.py lines 1440-1449). -/
def queued_item (st : EngineState) (w : Workload) (savings : ℚ) (reason : String) :
    ApprovalRequest :=
  { workload_id := w.id
    estimated_savings := savings
    aws_cost := get_aws_cost st
    alibaba_cost := get_alibaba_cost st
    recommended_provider :=
      if get_alibaba_cost st < get_aws_cost st then "alibaba" else "aws"
    status := "pending_approval"
    reason := reason }

/-- `AIRoutingEngine._queue_for_approval` (main.py lines 1438-1455). -/
def queue_for_approval (st : EngineState) (w : Workload) (savings : ℚ) (reason : String) :
    EngineState :=
  { st with pending_workloads := st.pending_workloads ++ [.approval (queued_item st w savings reason)] }

/-- `AIRoutingEngine.approve_workload` (main.py lines 1457-1477) as its
effect on the pending list: the first dict whose `workload_id` matches --
regardless of its current status -- gets its status overwritten, then the
loop breaks. -/
def approve_workload : List PendingItem → String → Bool → List PendingItem
  | [], _, _ => []
  | x :: xs, workload_id, approved =>
    if x.workloadId = workload_id then
      x.setStatus (if approved then "approved" else "rejected") :: xs
    else
      x :: approve_workload xs workload_id approved

/-- `AIRoutingEngine._deploy_workload` (main.py lines 1479-1502): the
workload is rebuilt from the approval dict with hard-coded attributes;
only `workload_data['workload_id']` is read. -/
def deploy_workload (ml : Workload → ProviderData → ℚ)
    (providers : List (String × ProviderData)) (workload_data : ApprovalRequest) :
    Option (String × String × List (String × Directive)) :=
  let w : Workload :=
    { id := workload_data.workload_id, cpu_cores := 4, memory_gb := 8,
      priority := "medium", cost_sensitivity := 0.5, latency_sensitivity := 0.5,
      estimated_duration_hours := 24 }
  match calculate_optimal_placement ml w providers with
  | none => none
  | some p => some (p.provider, p.region, generate_terraform_changes w p.provider p.region)

/-- Outcome of one `process_workload` run. -/
inductive ProcessOutcome where
  | pendingApproval
  | autoDeployed
  | error
deriving DecidableEq, Repr

/-- `AIRoutingEngine.process_workload` (main.py lines 1368-1436): the
placement, the cost-threshold gate, the savings computation and the
auto-deploy gate, with metrics/alerts elided. The `.error` outcome models
the blanket exception handler (reached e.g. when the provider dict is
empty and `max` raises). -/
def process_workload (ml : Workload → ProviderData → ℚ) (st : EngineState) (w : Workload)
    (providers : List (String × ProviderData)) : EngineState × ProcessOutcome :=
  match calculate_optimal_placement ml w providers with
  | none => (st, .error)
  | some p =>
    let estimated_cost :=
      match List.lookup p.provider providers with
      | some pd => calculate_workload_cost w pd
      | none => 0
    if check_cost_threshold st.cost_threshold estimated_cost = false then
      (queue_for_approval st w estimated_cost "cost exceeds threshold", .pendingApproval)
    else
      let savings := |get_aws_cost st - get_alibaba_cost st|
      if st.auto_deploy_enabled ∧ savings > st.approval_threshold then
        (st, .autoDeployed)
      else
        (queue_for_approval st w savings "Manual approval required", .pendingApproval)

/-- One entry of `_get_running_workloads` (main.py lines 1640-1657): the
fields `_monitor_workload_costs` reads. -/
structure RunningWorkload where
  id : String
  provider : String
deriving DecidableEq, Repr

/-- `AIRoutingEngine._request_switch_approval` (main.py lines 1687-1709):
appends a `pending_switch_approval` dict to the pending list. -/
def request_switch_approval (pending : List PendingItem) (w : RunningWorkload)
    (new_provider : String) (savings : ℚ) : List PendingItem :=
  pending ++ [.providerSwitch
    { workload_id := w.id, current_provider := w.provider, new_provider := new_provider,
      estimated_savings := savings, status := "pending_switch_approval" }]

/-- Python `await` applied to the result of the synchronous
`_get_aws_cost` / `_get_alibaba_cost` (main.py lines 1663-1664): the
methods return a plain float, which is not awaitable, so the await
expression raises a TypeError. -/
def awaitFloat (_x : ℚ) : Except String ℚ :=
  .error "TypeError: object float can not be used in await expression"

/-- The try-block body of `AIRoutingEngine._monitor_workload_costs`
(main.py lines 1661-1682), returning the new pending list and whether the
cost-spike warning line is reached. -/
def monitor_workload_costs_body (st : EngineState) (w : RunningWorkload) :
    Except String (List PendingItem × Bool) := do
  let aws_cost ← awaitFloat (get_aws_cost st)
  let alibaba_cost ← awaitFloat (get_alibaba_cost st)
  let current_provider := w.provider
  let pending :=
    if current_provider = "aws" ∧ alibaba_cost < aws_cost then
      let savings := aws_cost - alibaba_cost
      if savings > 0.01 then request_switch_approval st.pending_workloads w "alibaba" savings
      else st.pending_workloads
    else if current_provider = "alibaba" ∧ aws_cost < alibaba_cost then
      let savings := alibaba_cost - aws_cost
      if savings > 0.01 then request_switch_approval st.pending_workloads w "aws" savings
      else st.pending_workloads
    else st.pending_workloads
  let current_cost := if current_provider = "aws" then aws_cost else alibaba_cost
  pure (pending, current_cost > 0.075)

/-- `AIRoutingEngine._monitor_workload_costs` (main.py lines 1659-1685):
the blanket `except` logs the error and leaves the pending list
unchanged. -/
def monitor_workload_costs (st : EngineState) (w : RunningWorkload) :
    List PendingItem × Bool :=
  match monitor_workload_costs_body st w with
  | .ok r => r
  | .error _ => (st.pending_workloads, false)

/-- Modelled from the spec: the drift-monitor body as §4.5 intends it,
i.e. with the two cost reads actually producing the simulated costs
instead of raising a TypeError (the source's `await` slip removed). -/
def monitor_workload_costs_intended (st : EngineState) (w : RunningWorkload) :
    List PendingItem × Bool :=
  let aws_cost := get_aws_cost st
  let alibaba_cost := get_alibaba_cost st
  let current_provider := w.provider
  let pending :=
    if current_provider = "aws" ∧ alibaba_cost < aws_cost then
      let savings := aws_cost - alibaba_cost
      if savings > 0.01 then request_switch_approval st.pending_workloads w "alibaba" savings
      else st.pending_workloads
    else if current_provider = "alibaba" ∧ aws_cost < alibaba_cost then
      let savings := alibaba_cost - aws_cost
      if savings > 0.01 then request_switch_approval st.pending_workloads w "aws" savings
      else st.pending_workloads
    else st.pending_workloads
  let current_cost := if current_provider = "aws" then aws_cost else alibaba_cost
  (pending, current_cost > 0.075)

/-! ### Properties of the Python `max` scan -/

lemma pyMaxAux_acc_le (l : List (String × ℚ)) (acc : String × ℚ) :
    acc.2 ≤ (pyMaxAux acc l).2 := by
  induction l generalizing acc with
  | nil => simp [pyMaxAux]
  | cons y ys ih =>
    by_cases h : acc.2 < y.2
    · simp only [pyMaxAux, if_pos h]
      exact le_trans (le_of_lt h) (ih y)
    · simpa only [pyMaxAux, if_neg h] using ih acc

lemma pyMaxAux_decomp (l : List (String × ℚ)) (acc : String × ℚ) :
    ∃ l1 l2, acc :: l = l1 ++ pyMaxAux acc l :: l2 ∧
      (∀ y ∈ l1, y.2 < (pyMaxAux acc l).2) ∧
      (∀ y ∈ l2, y.2 ≤ (pyMaxAux acc l).2) := by
  induction l generalizing acc with
  | nil => exact ⟨[], [], by simp [pyMaxAux], by simp, by simp⟩
  | cons y ys ih =>
    by_cases h : acc.2 < y.2
    · obtain ⟨l1, l2, hdec, h1, h2⟩ := ih y
      have hr : pyMaxAux acc (y :: ys) = pyMaxAux y ys := by
        simp [pyMaxAux, if_pos h]
      refine ⟨acc :: l1, l2, ?_, ?_, ?_⟩
      · rw [hr, List.cons_append, ← hdec]
      · intro z hz
        rw [hr]
        rcases List.mem_cons.mp hz with rfl | hz'
        · exact lt_of_lt_of_le h (pyMaxAux_acc_le ys y)
        · exact h1 z hz'
      · intro z hz; rw [hr]; exact h2 z hz
    · obtain ⟨l1, l2, hdec, h1, h2⟩ := ih acc
      have hr : pyMaxAux acc (y :: ys) = pyMaxAux acc ys := by
        simp [pyMaxAux, if_neg h]
      cases l1 with
      | nil =>
        simp only [List.nil_append] at hdec
        injection hdec with hacc hl2
        refine ⟨[], y :: ys, ?_, by simp, ?_⟩
        · rw [hr, ← hacc]; simp
        · intro z hz
          rw [hr, ← hacc]
          rcases List.mem_cons.mp hz with rfl | hz'
          · exact le_of_not_lt h
          · have := h2 z (by rw [← hl2]; exact hz')
            rwa [← hacc] at this
      | cons a t =>
        simp only [List.cons_append] at hdec
        injection hdec with hacc hys
        refine ⟨acc :: y :: t, l2, ?_, ?_, ?_⟩
        · rw [hr]
          simp only [List.cons_append]
          exact congrArg (List.cons acc) (congrArg (List.cons y) hys)
        · intro z hz
          rw [hr]
          have haccr : acc.2 < (pyMaxAux acc ys).2 := by
            have := h1 a (List.mem_cons_self a t)
            rwa [← hacc] at this
          rcases List.mem_cons.mp hz with rfl | hz'
          · exact haccr
          rcases List.mem_cons.mp hz' with rfl | hz''
          · exact lt_of_le_of_lt (le_of_not_lt h) haccr
          · exact h1 z (List.mem_cons_of_mem a hz'')
        · intro z hz; rw [hr]; exact h2 z hz

lemma pyMax_ne_nil {l : List (String × ℚ)} {best : String × ℚ}
    (h : pyMax l = some best) : l ≠ [] := by
  intro hl; subst hl; simp [pyMax] at h

/-- `pyMax` returns the first list entry attaining the maximal value:
everything before it is strictly below, everything after is at most it. -/
lemma pyMax_spec {l : List (String × ℚ)} {best : String × ℚ}
    (h : pyMax l = some best) :
    ∃ l1 l2, l = l1 ++ best :: l2 ∧
      (∀ y ∈ l1, y.2 < best.2) ∧ (∀ y ∈ l2, y.2 ≤ best.2) := by
  cases l with
  | nil => simp [pyMax] at h
  | cons x xs =>
    obtain ⟨l1, l2, hdec, h1, h2⟩ := pyMaxAux_decomp xs x
    have hb : pyMaxAux x xs = best := by
      have : some (pyMaxAux x xs) = some best := h
      injection this
    rw [hb] at hdec h1 h2
    exact ⟨l1, l2, hdec, h1, h2⟩

lemma pyMax_mem {l : List (String × ℚ)} {best : String × ℚ}
    (h : pyMax l = some best) : best ∈ l := by
  obtain ⟨l1, l2, hdec, -, -⟩ := pyMax_spec h
  rw [hdec]
  exact List.mem_append_right l1 (List.mem_cons_self best l2)

lemma pyMax_le {l : List (String × ℚ)} {best : String × ℚ}
    (h : pyMax l = some best) : ∀ y ∈ l, y.2 ≤ best.2 := by
  obtain ⟨l1, l2, hdec, h1, h2⟩ := pyMax_spec h
  intro y hy
  rw [hdec] at hy
  rcases List.mem_append.mp hy with hy1 | hy2
  · exact le_of_lt (h1 y hy1)
  rcases List.mem_cons.mp hy2 with rfl | hy3
  · exact le_refl _
  · exact h2 y hy3

/-! ### Dict lookup over association lists -/

lemma lookup_eq_some_of_nodup {β : Type} {l : List (String × β)}
    (hnd : (l.map Prod.fst).Nodup) {x : String × β} (hx : x ∈ l) :
    List.lookup x.1 l = some x.2 := by
  induction l with
  | nil => cases hx
  | cons a as ih =>
    obtain ⟨k0, v0⟩ := a
    rw [List.map_cons] at hnd
    have hnd' := List.nodup_cons.mp hnd
    rcases List.mem_cons.mp hx with rfl | hmem
    · simp [List.lookup]
    · have hne : (x.1 == k0) = false := by
        refine beq_false_of_ne ?_
        intro he
        have hmk : x.1 ∈ as.map Prod.fst := List.mem_map_of_mem Prod.fst hmem
        rw [he] at hmk
        exact hnd'.1 hmk
      simp only [List.lookup, hne]
      exact ih hnd'.2 hmem

lemma lookup_isSome_of_mem_keys {β : Type} {l : List (String × β)} {k : String}
    (h : k ∈ l.map Prod.fst) : ∃ v, List.lookup k l = some v := by
  induction l with
  | nil => simp at h
  | cons a as ih =>
    obtain ⟨k0, v0⟩ := a
    by_cases hk : k = k0
    · exact ⟨v0, by simp [List.lookup, hk]⟩
    · have : k ∈ as.map Prod.fst := by
        rw [List.map_cons] at h
        rcases List.mem_cons.mp h with h' | h'
        · exact absurd h' hk
        · exact h'
      obtain ⟨v, hv⟩ := ih this
      exact ⟨v, by simp [List.lookup, beq_false_of_ne hk, hv]⟩

lemma map_fst_map_pair {β : Type} (f : ProviderData → β)
    (l : List (String × ProviderData)) :
    ((l.map fun x => (x.1, f x.2)).map Prod.fst) = l.map Prod.fst := by
  simp [List.map_map, Function.comp]

lemma lookup_map_pair {β : Type} (f : ProviderData → β)
    {l : List (String × ProviderData)} (hnd : (l.map Prod.fst).Nodup)
    {x : String × ProviderData} (hx : x ∈ l) :
    List.lookup x.1 (l.map fun nd => (nd.1, f nd.2)) = some (f x.2) := by
  have hx' : ((x.1, f x.2) : String × β) ∈ l.map fun nd => (nd.1, f nd.2) :=
    List.mem_map_of_mem _ hx
  have hnd' : ((l.map fun nd => (nd.1, f nd.2)).map Prod.fst).Nodup := by
    rw [map_fst_map_pair]; exact hnd
  exact lookup_eq_some_of_nodup hnd' hx'

/-! ### Unfolding lemmas for the placement engine -/

lemma calculate_optimal_placement_eq
    (ml : Workload → ProviderData → ℚ) (w : Workload)
    (providers : List (String × ProviderData)) {best : String × ℚ} {pd : ProviderData}
    (hb : pyMax (combined_scores ml w providers) = some best)
    (hl : List.lookup best.1 providers = some pd) :
    calculate_optimal_placement ml w providers = some
      { provider := best.1
        region := pd.region
        confidence_score := 0.7 * placement_cost_confidence w providers best.1 +
          0.3 * lookupQ (placement_predictions ml w providers) best.1
        estimated_cost := lookupQ (placement_costs w providers) best.1
        cost_confidence := placement_cost_confidence w providers best.1
        ml_confidence := lookupQ (placement_predictions ml w providers) best.1 } := by
  unfold calculate_optimal_placement
  rw [hb]
  dsimp only
  rw [hl]

/-- The winner returned by `pyMax` over the combined-score dict is the image
of an input provider entry. -/
lemma pyMax_combined_mem
    {ml : Workload → ProviderData → ℚ} {w : Workload}
    {providers : List (String × ProviderData)} {best : String × ℚ}
    (hb : pyMax (combined_scores ml w providers) = some best) :
    ∃ nd ∈ providers, best =
      (nd.1, 0.7 * (1 / (calculate_workload_cost w nd.2 + 0.001)) + 0.3 * ml w nd.2) := by
  have hmem := pyMax_mem hb
  unfold combined_scores at hmem
  obtain ⟨nd, hnd, hev⟩ := List.mem_map.mp hmem
  exact ⟨nd, hnd, hev.symm⟩

lemma combined_scores_ne_nil
    (ml : Workload → ProviderData → ℚ) (w : Workload)
    {providers : List (String × ProviderData)} (hne : providers ≠ []) :
    combined_scores ml w providers ≠ [] := by
  unfold combined_scores
  simpa using hne

lemma pyMax_combined_some
    (ml : Workload → ProviderData → ℚ) (w : Workload)
    {providers : List (String × ProviderData)} (hne : providers ≠ []) :
    ∃ best, pyMax (combined_scores ml w providers) = some best := by
  cases hsc : combined_scores ml w providers with
  | nil => exact absurd hsc (combined_scores_ne_nil ml w hne)
  | cons x xs => exact ⟨pyMaxAux x xs, by simp [pyMax, hsc]⟩

/-! ### Concrete fixtures for witnesses and counterexamples -/

/-- A neutral provider snapshot: unit cost, no spot, no credits. -/
def P0 : ProviderData :=
  { region := "r", cost_per_hour := 1, latency_ms := 50, cpu_utilization := 0.5,
    memory_utilization := 0.6, available_instances := 10, spot_available := false,
    credits_available := 0 }

/-- A small two-core workload. -/
def W0 : Workload :=
  { id := "w0", cpu_cores := 2, memory_gb := 4, priority := "medium",
    cost_sensitivity := 0.5, latency_sensitivity := 0.5, estimated_duration_hours := 1 }

/-- The neutral predictor (an untrained model returns 0.5). -/
def mlHalf : Workload → ProviderData → ℚ := fun _ _ => 0.5

/-! ### C2 -/

/-- C2: for every workload and every non-empty provider map,
`calculate_optimal_placement` selects a provider that is a key of the input
map, and the selected provider's combined score
`0.7 × 1/(estimatedCost + 0.001) + 0.3 × predictiveScore` is greater than
or equal to the combined score of every other provider in the map. The
positivity hypothesis excludes the inputs on which the source raises
`ZeroDivisionError` at the confidence step (main.py line 860, a zero-cost
winner with another provider present) and returns nothing. -/
theorem C2_winner_present_and_maximal
    (ml : Workload → ProviderData → ℚ) (w : Workload)
    (providers : List (String × ProviderData)) (hne : providers ≠ [])
    (hpos : ∀ nd ∈ providers, 0 < calculate_workload_cost w nd.2) :
    ∃ p, calculate_optimal_placement ml w providers = some p ∧
      p.provider ∈ providers.map Prod.fst ∧
      ∃ nd ∈ providers, nd.1 = p.provider ∧
        ∀ nd' ∈ providers,
          0.7 * (1 / (calculate_workload_cost w nd'.2 + 0.001)) + 0.3 * ml w nd'.2 ≤
          0.7 * (1 / (calculate_workload_cost w nd.2 + 0.001)) + 0.3 * ml w nd.2 := by
  obtain ⟨best, hb⟩ := pyMax_combined_some ml w hne
  obtain ⟨nd, hnd, hbest⟩ := pyMax_combined_mem hb
  have hkey : best.1 ∈ providers.map Prod.fst := by
    rw [hbest]; exact List.mem_map_of_mem Prod.fst hnd
  obtain ⟨pd, hl⟩ := lookup_isSome_of_mem_keys hkey
  refine ⟨_, calculate_optimal_placement_eq ml w providers hb hl, hkey, nd, hnd, ?_, ?_⟩
  · rw [hbest]
  · intro nd' hnd'
    have hmem' : (nd'.1,
        0.7 * (1 / (calculate_workload_cost w nd'.2 + 0.001)) + 0.3 * ml w nd'.2) ∈
        combined_scores ml w providers := by
      unfold combined_scores
      exact List.mem_map_of_mem _ hnd'
    have hle := pyMax_le hb _ hmem'
    rw [hbest] at hle
    exact hle

/-- Witness for C2 at a concrete one-provider map with positive cost. -/
theorem C2_winner_present_and_maximal_witness :
    (([(("aws" : String), P0)] ≠ []) ∧
     (∀ nd ∈ [(("aws" : String), P0)], 0 < calculate_workload_cost W0 nd.2)) ∧
    (∃ p, calculate_optimal_placement mlHalf W0 [("aws", P0)] = some p ∧
      p.provider ∈ [("aws", P0)].map Prod.fst ∧
      ∃ nd ∈ [(("aws" : String), P0)], nd.1 = p.provider ∧
        ∀ nd' ∈ [(("aws" : String), P0)],
          0.7 * (1 / (calculate_workload_cost W0 nd'.2 + 0.001)) + 0.3 * mlHalf W0 nd'.2 ≤
          0.7 * (1 / (calculate_workload_cost W0 nd.2 + 0.001)) + 0.3 * mlHalf W0 nd.2) := by
  have hpos : ∀ nd ∈ [(("aws" : String), P0)], 0 < calculate_workload_cost W0 nd.2 := by
    intro nd hnd
    rcases List.mem_cons.mp hnd with rfl | hnd1
    · norm_num [calculate_workload_cost, required_instances, P0, W0, Int.fdiv_eq_tdiv]
    · cases hnd1
  exact ⟨⟨by simp, hpos⟩,
    C2_winner_present_and_maximal mlHalf W0 [("aws", P0)] (by simp) hpos⟩

/-! ### C4 -/

/-- The total discount multiplier the cost model applies: the spot factor
`1 - 0.6` when spot is available, then the credits factor
`1 - min(0.2, credits/1000)` when credits are positive. -/
def discount_multiplier (p : ProviderData) : ℚ :=
  (if p.spot_available then 1 - 0.6 else 1) *
  (if 0 < p.credits_available then 1 - min 0.2 (p.credits_available / 1000) else 1)

/-- C4: for every workload with at least one core and every provider
snapshot with nonnegative cost and credits, the estimated cost equals
`costPerHour × max(1, cpuCores div 2)` times the sequentially applied
discounts; it is never negative and the total discount multiplier lies in
`[0.32, 1]`. -/
theorem C4_cost_formula (w : Workload) (p : ProviderData)
    (hcpu : 1 ≤ w.cpu_cores) (hc : 0 ≤ p.cost_per_hour)
    (hcr : 0 ≤ p.credits_available) :
    calculate_workload_cost w p =
      p.cost_per_hour * ((required_instances w : ℤ) : ℚ) * discount_multiplier p ∧
    0 ≤ calculate_workload_cost w p ∧
    0.32 ≤ discount_multiplier p ∧ discount_multiplier p ≤ 1 := by
  have hreq : (1 : ℚ) ≤ ((required_instances w : ℤ) : ℚ) := by
    have h1 : (1 : ℤ) ≤ required_instances w := le_max_left 1 _
    exact_mod_cast h1
  have hmin_le : min (0.2 : ℚ) (p.credits_available / 1000) ≤ 0.2 := min_le_left _ _
  have hmin_nonneg : 0 ≤ min (0.2 : ℚ) (p.credits_available / 1000) :=
    le_min (by norm_num) (div_nonneg hcr (by norm_num))
  have hsf_low : (2/5 : ℚ) ≤ (if p.spot_available then (1 - 0.6 : ℚ) else 1) := by
    cases p.spot_available <;> norm_num
  have hsf_hi : (if p.spot_available then (1 - 0.6 : ℚ) else 1) ≤ 1 := by
    cases p.spot_available <;> norm_num
  have hcf_low : (4/5 : ℚ) ≤
      (if 0 < p.credits_available then
        1 - min 0.2 (p.credits_available / 1000) else 1) := by
    by_cases hcred : 0 < p.credits_available
    · rw [if_pos hcred]; linarith
    · rw [if_neg hcred]; norm_num
  have hcf_hi : (if 0 < p.credits_available then
      1 - min 0.2 (p.credits_available / 1000) else 1) ≤ 1 := by
    by_cases hcred : 0 < p.credits_available
    · rw [if_pos hcred]; linarith
    · rw [if_neg hcred]
  have hbounds : 0.32 ≤ discount_multiplier p ∧ discount_multiplier p ≤ 1 := by
    unfold discount_multiplier
    constructor
    · nlinarith [hsf_low, hcf_low]
    · nlinarith [hsf_low, hcf_low, hsf_hi, hcf_hi]
  have heq : calculate_workload_cost w p =
      p.cost_per_hour * ((required_instances w : ℤ) : ℚ) * discount_multiplier p := by
    unfold calculate_workload_cost discount_multiplier
    cases p.spot_available <;> by_cases hcred : 0 < p.credits_available <;>
      simp [hcred] <;> ring
  refine ⟨heq, ?_, hbounds⟩
  rw [heq]
  exact mul_nonneg (mul_nonneg hc (by linarith)) (by linarith [hbounds.1])

/-- A snapshot with both discounts active (spot plus 500 credits). -/
def P4 : ProviderData :=
  { region := "us-east-1", cost_per_hour := 0.05, latency_ms := 50,
    cpu_utilization := 0.5, memory_utilization := 0.6, available_instances := 10,
    spot_available := true, credits_available := 500 }

/-- Witness for C4 at a concrete workload and snapshot. -/
theorem C4_cost_formula_witness :
    ((1 : ℤ) ≤ W0.cpu_cores ∧ (0 : ℚ) ≤ P4.cost_per_hour ∧
      (0 : ℚ) ≤ P4.credits_available) ∧
    (calculate_workload_cost W0 P4 =
      P4.cost_per_hour * ((required_instances W0 : ℤ) : ℚ) * discount_multiplier P4 ∧
    0 ≤ calculate_workload_cost W0 P4 ∧
    0.32 ≤ discount_multiplier P4 ∧ discount_multiplier P4 ≤ 1) :=
  ⟨⟨by decide, by norm_num [P4], by norm_num [P4]⟩,
    C4_cost_formula W0 P4 (by decide) (by norm_num [P4]) (by norm_num [P4])⟩

/-! ### C3 -/

/-- C3 counterexample: two providers with identical snapshots (hence
identical combined scores and identical estimated costs) where the winner
is `"zzz"`, the first key in map insertion order, although `"aaa"` is
lexically first -- the claimed lowest-cost-then-lexical tie-break does not
hold. -/
theorem C3_counterexample :
    calculate_optimal_placement mlHalf W0 [("zzz", P0), ("aaa", P0)] =
      some { provider := "zzz", region := "r", confidence_score := 3/20,
             estimated_cost := 1, cost_confidence := 0, ml_confidence := 1/2 } ∧
    (combined_scores mlHalf W0 [("zzz", P0), ("aaa", P0)]).map Prod.snd =
      [2429/2860, 2429/2860] ∧
    calculate_workload_cost W0 P0 = 1 ∧
    ("aaa" : String) < "zzz" := by
  refine ⟨?_, ?_, ?_, ?_⟩
  · norm_num [calculate_optimal_placement, combined_scores, pyMax, pyMaxAux,
      placement_costs, placement_predictions, placement_cost_confidence, other_costs,
      lookupQ, listMax, List.lookup, List.filter, calculate_workload_cost,
      required_instances, P0, W0, mlHalf, Int.fdiv_eq_tdiv,
      eq_false (by decide : ¬ (("aaa" : String) = "zzz")),
      (by decide : (("aaa" : String) != "zzz") = true)]
  · norm_num [combined_scores, calculate_workload_cost, required_instances, P0, W0,
      mlHalf, Int.fdiv_eq_tdiv]
  · norm_num [calculate_workload_cost, required_instances, P0, W0, Int.fdiv_eq_tdiv]
  · rw [String.lt_iff_toList_lt]
    decide

/-- C3 as amended: winner selection is deterministic, but ties in the
combined score are broken by map insertion order -- the winner is the first
provider whose combined score is maximal (everything before it scores
strictly lower, everything after scores no higher), regardless of cost or
name. The positivity hypothesis excludes the inputs on which the source
raises `ZeroDivisionError` at the confidence step (main.py line 860, a
zero-cost winner with another provider present) and returns nothing. -/
theorem C3_first_max_wins
    (ml : Workload → ProviderData → ℚ) (w : Workload)
    (providers : List (String × ProviderData)) (hne : providers ≠ [])
    (hpos : ∀ nd ∈ providers, 0 < calculate_workload_cost w nd.2) :
    ∃ p best l1 l2,
      calculate_optimal_placement ml w providers = some p ∧
      p.provider = best.1 ∧
      combined_scores ml w providers = l1 ++ best :: l2 ∧
      (∀ y ∈ l1, y.2 < best.2) ∧
      (∀ y ∈ l2, y.2 ≤ best.2) := by
  obtain ⟨best, hb⟩ := pyMax_combined_some ml w hne
  obtain ⟨l1, l2, hdec, h1, h2⟩ := pyMax_spec hb
  have hkey : best.1 ∈ providers.map Prod.fst := by
    obtain ⟨nd, hnd, hbest⟩ := pyMax_combined_mem hb
    rw [hbest]; exact List.mem_map_of_mem Prod.fst hnd
  obtain ⟨pd, hl⟩ := lookup_isSome_of_mem_keys hkey
  exact ⟨_, best, l1, l2, calculate_optimal_placement_eq ml w providers hb hl,
    rfl, hdec, h1, h2⟩

/-- Witness for the amended C3 at a concrete one-provider map with
positive cost. -/
theorem C3_first_max_wins_witness :
    (([(("aws" : String), P0)] ≠ []) ∧
     (∀ nd ∈ [(("aws" : String), P0)], 0 < calculate_workload_cost W0 nd.2)) ∧
    (∃ p best l1 l2,
      calculate_optimal_placement mlHalf W0 [("aws", P0)] = some p ∧
      p.provider = best.1 ∧
      combined_scores mlHalf W0 [("aws", P0)] = l1 ++ best :: l2 ∧
      (∀ y ∈ l1, y.2 < best.2) ∧
      (∀ y ∈ l2, y.2 ≤ best.2)) := by
  have hpos : ∀ nd ∈ [(("aws" : String), P0)], 0 < calculate_workload_cost W0 nd.2 := by
    intro nd hnd
    rcases List.mem_cons.mp hnd with rfl | hnd1
    · norm_num [calculate_workload_cost, required_instances, P0, W0, Int.fdiv_eq_tdiv]
    · cases hnd1
  exact ⟨⟨by simp, hpos⟩,
    C3_first_max_wins mlHalf W0 [("aws", P0)] (by simp) hpos⟩

/-! ### C5 -/

/-- Expensive provider favoured by the predictor. -/
def PA5 : ProviderData :=
  { region := "ra", cost_per_hour := 100, latency_ms := 50, cpu_utilization := 0.5,
    memory_utilization := 0.6, available_instances := 10, spot_available := false,
    credits_available := 0 }

/-- Cheaper provider ignored by the predictor. -/
def PB5 : ProviderData :=
  { region := "rb", cost_per_hour := 50, latency_ms := 50, cpu_utilization := 0.5,
    memory_utilization := 0.6, available_instances := 10, spot_available := false,
    credits_available := 0 }

/-- A predictor with values in `[0,1]` that strongly favours the
expensive provider. -/
def mlC5 : Workload → ProviderData → ℚ := fun _ d => if d.cost_per_hour = 100 then 1 else 0

/-- The decision the engine records on the C5 inputs. -/
def placementC5 : Placement :=
  { provider := "aws", region := "ra", confidence_score := -2/5,
    estimated_cost := 100, cost_confidence := -1, ml_confidence := 1 }

/-- C5 counterexample: with a `[0,1]`-valued predictor, the winner can be
costlier than the alternative, in which case `cost_confidence` (which the
source computes as `min(1, ·)` with no lower clamp) is `-1` and the
recorded confidence is `-2/5 < 0` -- the claimed `clamp(0,1,·)` and the
claimed `[0,1]` confidence range do not hold. -/
theorem C5_counterexample :
    calculate_optimal_placement mlC5 W0 [("aws", PA5), ("alibaba", PB5)] =
      some placementC5 ∧
    mlC5 W0 PA5 = 1 ∧ mlC5 W0 PB5 = 0 ∧
    placementC5.confidence_score < 0 := by
  refine ⟨?_, by norm_num [mlC5, PA5], by norm_num [mlC5, PB5], by norm_num [placementC5]⟩
  norm_num [calculate_optimal_placement, combined_scores, pyMax, pyMaxAux,
    placement_costs, placement_predictions, placement_cost_confidence, other_costs,
    lookupQ, listMax, List.lookup, List.filter, calculate_workload_cost,
    required_instances, PA5, PB5, W0, mlC5, placementC5, Int.fdiv_eq_tdiv,
    eq_false (by decide : ¬ (("alibaba" : String) = "aws")),
    (by decide : (("alibaba" : String) != "aws") = true)]

/-- C5 as amended: the recorded confidence is
`0.7 × costConfidence + 0.3 × predictiveScore(winner)` where
`costConfidence` is `min(1, (maxOtherCost − winnerCost)/winnerCost × 2)`
against the most expensive other provider (`0.5` with no other provider),
with no lower clamp; for a `[0,1]`-valued predictor the confidence is at
most `1` but can be negative. The positivity hypothesis excludes inputs on
which the source would raise `ZeroDivisionError`. -/
theorem C5_confidence_formula
    (ml : Workload → ProviderData → ℚ) (w : Workload)
    (providers : List (String × ProviderData))
    (hnd : (providers.map Prod.fst).Nodup)
    (hml : ∀ w' d, 0 ≤ ml w' d ∧ ml w' d ≤ 1)
    (hpos : ∀ nd ∈ providers, 0 < calculate_workload_cost w nd.2)
    (p : Placement) (hp : calculate_optimal_placement ml w providers = some p) :
    p.confidence_score = 0.7 * p.cost_confidence + 0.3 * p.ml_confidence ∧
    p.cost_confidence =
      (if (other_costs w providers p.provider).isEmpty then (0.5 : ℚ)
       else min 1 ((listMax (other_costs w providers p.provider) - p.estimated_cost)
                     / p.estimated_cost * 2)) ∧
    (∃ nd ∈ providers, nd.1 = p.provider ∧ p.ml_confidence = ml w nd.2) ∧
    p.confidence_score ≤ 1 := by
  have hne : providers ≠ [] := by
    intro h; subst h
    simp [calculate_optimal_placement, combined_scores, pyMax] at hp
  obtain ⟨best, hb⟩ := pyMax_combined_some ml w hne
  obtain ⟨nd, hnd_mem, hbest⟩ := pyMax_combined_mem hb
  have hb1 : best.1 = nd.1 := by rw [hbest]
  have hkey : best.1 ∈ providers.map Prod.fst := by
    rw [hb1]; exact List.mem_map_of_mem Prod.fst hnd_mem
  obtain ⟨pd, hl⟩ := lookup_isSome_of_mem_keys hkey
  have heq := calculate_optimal_placement_eq ml w providers hb hl
  have hpR := Option.some.inj (heq.symm.trans hp)
  subst hpR
  have hmlc : lookupQ (placement_predictions ml w providers) best.1 = ml w nd.2 := by
    have hlk := lookup_map_pair (fun d => ml w d) hnd hnd_mem
    unfold lookupQ placement_predictions
    rw [hb1, hlk]
    rfl
  have hcc : placement_cost_confidence w providers best.1 ≤ 1 := by
    unfold placement_cost_confidence
    by_cases h : (other_costs w providers best.1).isEmpty
    · rw [if_pos h]; norm_num
    · rw [if_neg h]; exact min_le_left _ _
  refine ⟨rfl, ?_, ⟨nd, hnd_mem, hb1.symm, hmlc⟩, ?_⟩
  · unfold placement_cost_confidence
    rfl
  · show 0.7 * placement_cost_confidence w providers best.1 +
      0.3 * lookupQ (placement_predictions ml w providers) best.1 ≤ 1
    rw [hmlc]
    have h01 := hml w nd.2
    linarith [h01.1, h01.2, hcc]

/-- Witness for the amended C5 at the concrete C5 inputs. -/
theorem C5_confidence_formula_witness :
    (([(("aws" : String), PA5), ("alibaba", PB5)].map Prod.fst).Nodup ∧
     (∀ w' d, 0 ≤ mlC5 w' d ∧ mlC5 w' d ≤ 1) ∧
     (∀ nd ∈ [(("aws" : String), PA5), ("alibaba", PB5)],
        0 < calculate_workload_cost W0 nd.2) ∧
     calculate_optimal_placement mlC5 W0 [("aws", PA5), ("alibaba", PB5)] =
       some placementC5) ∧
    (placementC5.confidence_score =
        0.7 * placementC5.cost_confidence + 0.3 * placementC5.ml_confidence ∧
     placementC5.cost_confidence =
       (if (other_costs W0 [("aws", PA5), ("alibaba", PB5)] placementC5.provider).isEmpty
        then (0.5 : ℚ)
        else min 1 ((listMax (other_costs W0 [("aws", PA5), ("alibaba", PB5)]
            placementC5.provider) - placementC5.estimated_cost)
              / placementC5.estimated_cost * 2)) ∧
     (∃ nd ∈ [(("aws" : String), PA5), ("alibaba", PB5)],
        nd.1 = placementC5.provider ∧ placementC5.ml_confidence = mlC5 W0 nd.2) ∧
     placementC5.confidence_score ≤ 1) := by
  have h1 : ([(("aws" : String), PA5), ("alibaba", PB5)].map Prod.fst).Nodup := by
    simp [PA5, PB5]
  have h2 : ∀ w' d, 0 ≤ mlC5 w' d ∧ mlC5 w' d ≤ 1 := by
    intro w' d
    unfold mlC5
    by_cases h : d.cost_per_hour = 100
    · rw [if_pos h]; norm_num
    · rw [if_neg h]; norm_num
  have h3 : ∀ nd ∈ [(("aws" : String), PA5), ("alibaba", PB5)],
      0 < calculate_workload_cost W0 nd.2 := by
    intro nd hnd
    rcases List.mem_cons.mp hnd with rfl | hnd'
    · norm_num [calculate_workload_cost, required_instances, PA5, W0, Int.fdiv_eq_tdiv]
    rcases List.mem_cons.mp hnd' with rfl | hnd''
    · norm_num [calculate_workload_cost, required_instances, PB5, W0, Int.fdiv_eq_tdiv]
    · cases hnd''
  have h4 : calculate_optimal_placement mlC5 W0 [("aws", PA5), ("alibaba", PB5)] =
      some placementC5 := by
    norm_num [calculate_optimal_placement, combined_scores, pyMax, pyMaxAux,
      placement_costs, placement_predictions, placement_cost_confidence, other_costs,
      lookupQ, listMax, List.lookup, List.filter, calculate_workload_cost,
      required_instances, PA5, PB5, W0, mlC5, placementC5, Int.fdiv_eq_tdiv,
      eq_false (by decide : ¬ (("alibaba" : String) = "aws")),
      (by decide : (("alibaba" : String) != "aws") = true)]
  exact ⟨⟨h1, h2, h3, h4⟩,
    C5_confidence_formula mlC5 W0 [("aws", PA5), ("alibaba", PB5)] h1 h2 h3 placementC5 h4⟩

/-! ### C1 -/

/-- On a map with distinct keys, the winner's recomputed cost
(`_calculate_workload_cost(workload, providers[provider])` in
`process_workload`) equals the decision's `estimated_cost`. -/
lemma placement_winner_lookup
    (ml : Workload → ProviderData → ℚ) (w : Workload)
    (providers : List (String × ProviderData))
    (hnd : (providers.map Prod.fst).Nodup)
    (p : Placement) (hp : calculate_optimal_placement ml w providers = some p) :
    ∃ pd, List.lookup p.provider providers = some pd ∧
      calculate_workload_cost w pd = p.estimated_cost := by
  have hne : providers ≠ [] := by
    intro h; subst h
    simp [calculate_optimal_placement, combined_scores, pyMax] at hp
  obtain ⟨best, hb⟩ := pyMax_combined_some ml w hne
  obtain ⟨nd, hnd_mem, hbest⟩ := pyMax_combined_mem hb
  have hb1 : best.1 = nd.1 := by rw [hbest]
  have hlk : List.lookup best.1 providers = some nd.2 := by
    rw [hb1]; exact lookup_eq_some_of_nodup hnd hnd_mem
  have heq := calculate_optimal_placement_eq ml w providers hb hlk
  have hpR := Option.some.inj (heq.symm.trans hp)
  subst hpR
  refine ⟨nd.2, hlk, ?_⟩
  show calculate_workload_cost w nd.2 = lookupQ (placement_costs w providers) best.1
  have hlc := lookup_map_pair (calculate_workload_cost w) hnd hnd_mem
  unfold lookupQ placement_costs
  rw [hb1, hlc]
  rfl

/-- C1: whenever the winner's estimated cost strictly exceeds the
configured cost threshold, `process_workload` queues the workload with
status `pending_approval` and returns, for either value of the auto-deploy
flag (the cost gate precedes -- and cannot be bypassed by -- the
auto-deploy/savings gate). -/
theorem C1_cost_threshold_gate
    (ml : Workload → ProviderData → ℚ) (st : EngineState) (w : Workload)
    (providers : List (String × ProviderData))
    (hnd : (providers.map Prod.fst).Nodup)
    (p : Placement) (hp : calculate_optimal_placement ml w providers = some p)
    (hcost : st.cost_threshold < p.estimated_cost) :
    ∀ b : Bool,
      process_workload ml { st with auto_deploy_enabled := b } w providers =
        (queue_for_approval { st with auto_deploy_enabled := b } w p.estimated_cost
           "cost exceeds threshold", ProcessOutcome.pendingApproval) ∧
      (process_workload ml { st with auto_deploy_enabled := b } w providers).1.pending_workloads =
        st.pending_workloads ++
          [.approval (queued_item { st with auto_deploy_enabled := b } w p.estimated_cost
             "cost exceeds threshold")] ∧
      (queued_item { st with auto_deploy_enabled := b } w p.estimated_cost
         "cost exceeds threshold").status = "pending_approval" := by
  obtain ⟨pd, hlk, hceq⟩ := placement_winner_lookup ml w providers hnd p hp
  intro b
  have hch : check_cost_threshold st.cost_threshold p.estimated_cost = false := by
    unfold check_cost_threshold
    rw [if_pos hcost]
  have hrun : process_workload ml { st with auto_deploy_enabled := b } w providers =
      (queue_for_approval { st with auto_deploy_enabled := b } w p.estimated_cost
        "cost exceeds threshold", ProcessOutcome.pendingApproval) := by
    unfold process_workload
    rw [hp]
    dsimp only
    rw [hlk]
    dsimp only
    rw [hceq]
    rw [if_pos hch]
  exact ⟨hrun, by rw [hrun]; rfl, rfl⟩

/-- An engine state with the default 50/hour cost threshold. -/
def stC1 : EngineState :=
  { auto_deploy_enabled := false, approval_threshold := 0.01, cost_threshold := 50,
    aws_simulated_cost := 0.05, alibaba_simulated_cost := 0.5, pending_workloads := [] }

/-- Witness for C1: a workload whose winning estimated cost (100/hour)
exceeds the 50/hour threshold. -/
theorem C1_cost_threshold_gate_witness :
    (([(("aws" : String), PA5), ("alibaba", PB5)].map Prod.fst).Nodup ∧
     calculate_optimal_placement mlC5 W0 [("aws", PA5), ("alibaba", PB5)] =
       some placementC5 ∧
     stC1.cost_threshold < placementC5.estimated_cost) ∧
    (∀ b : Bool,
      process_workload mlC5 { stC1 with auto_deploy_enabled := b } W0
          [("aws", PA5), ("alibaba", PB5)] =
        (queue_for_approval { stC1 with auto_deploy_enabled := b } W0
           placementC5.estimated_cost "cost exceeds threshold",
         ProcessOutcome.pendingApproval) ∧
      (process_workload mlC5 { stC1 with auto_deploy_enabled := b } W0
          [("aws", PA5), ("alibaba", PB5)]).1.pending_workloads =
        stC1.pending_workloads ++
          [.approval (queued_item { stC1 with auto_deploy_enabled := b } W0
             placementC5.estimated_cost "cost exceeds threshold")] ∧
      (queued_item { stC1 with auto_deploy_enabled := b } W0
         placementC5.estimated_cost "cost exceeds threshold").status =
        "pending_approval") := by
  have h1 : ([(("aws" : String), PA5), ("alibaba", PB5)].map Prod.fst).Nodup := by
    simp [PA5, PB5]
  have h2 : calculate_optimal_placement mlC5 W0 [("aws", PA5), ("alibaba", PB5)] =
      some placementC5 := by
    norm_num [calculate_optimal_placement, combined_scores, pyMax, pyMaxAux,
      placement_costs, placement_predictions, placement_cost_confidence, other_costs,
      lookupQ, listMax, List.lookup, List.filter, calculate_workload_cost,
      required_instances, PA5, PB5, W0, mlC5, placementC5, Int.fdiv_eq_tdiv,
      eq_false (by decide : ¬ (("alibaba" : String) = "aws")),
      (by decide : (("alibaba" : String) != "aws") = true)]
  have h3 : stC1.cost_threshold < placementC5.estimated_cost := by
    norm_num [stC1, placementC5]
  exact ⟨⟨h1, h2, h3⟩,
    C1_cost_threshold_gate mlC5 stC1 W0 [("aws", PA5), ("alibaba", PB5)] h1 placementC5 h2 h3⟩

/-! ### C6 -/

/-- For the providers the engine can actually select (`aws`/`alibaba`),
every emitted change plan has exactly one `scale_up` directive, with the
required capacity, and the other directive zeroes everything out. -/
lemma single_scale_up_of_known_provider (w : Workload) (provider region : String)
    (hprov : provider = "aws" ∨ provider = "alibaba") :
    ((generate_terraform_changes w provider region).filter
        (fun d => d.2.action == "scale_up")).length = 1 ∧
    (∀ d ∈ generate_terraform_changes w provider region,
      d.2.action = "scale_up" →
        d.2.desired_capacity = max 1 (Int.fdiv w.cpu_cores 2) ∧
        1 ≤ d.2.desired_capacity) ∧
    (∀ d ∈ generate_terraform_changes w provider region,
      d.2.action ≠ "scale_up" →
        d.2.action = "scale_down" ∧ d.2.desired_capacity = 0 ∧
        d.2.min_capacity = 0 ∧ d.2.max_capacity = 0) := by
  have hreq : (1 : ℤ) ≤ required_instances w := le_max_left 1 _
  have hsd : ¬ (("scale_down" : String) = "scale_up") := by decide
  rcases hprov with rfl | rfl
  · have hplan : generate_terraform_changes w "aws" region =
        [("aws",
          { provider_label := "aws", region := region,
            desired_capacity := required_instances w,
            min_capacity := required_instances w,
            max_capacity := required_instances w * 2, action := "scale_up" }),
         ("alibaba",
          { provider_label := "alicloud", region := region, desired_capacity := 0,
            min_capacity := 0, max_capacity := 0, action := "scale_down" })] := by
      unfold generate_terraform_changes
      rw [if_pos rfl]
    refine ⟨?_, ?_, ?_⟩
    · rw [hplan]
      simp [List.filter,
        (by decide : (("scale_up" : String) == "scale_up") = true),
        (by decide : (("scale_down" : String) == "scale_up") = false)]
    · intro d hd hact
      rw [hplan] at hd
      rcases List.mem_cons.mp hd with rfl | hd1
      · exact ⟨rfl, hreq⟩
      rcases List.mem_cons.mp hd1 with rfl | hd2
      · exact absurd hact hsd
      · cases hd2
    · intro d hd hact
      rw [hplan] at hd
      rcases List.mem_cons.mp hd with rfl | hd1
      · exact absurd rfl hact
      rcases List.mem_cons.mp hd1 with rfl | hd2
      · exact ⟨rfl, rfl, rfl, rfl⟩
      · cases hd2
  · have hne : ¬ (("alibaba" : String) = "aws") := by decide
    have hplan : generate_terraform_changes w "alibaba" region =
        [("aws",
          { provider_label := "aws", region := region, desired_capacity := 0,
            min_capacity := 0, max_capacity := 0, action := "scale_down" }),
         ("alibaba",
          { provider_label := "alicloud", region := region,
            desired_capacity := required_instances w,
            min_capacity := required_instances w,
            max_capacity := required_instances w * 2, action := "scale_up" })] := by
      unfold generate_terraform_changes
      rw [if_neg hne, if_pos rfl]
    refine ⟨?_, ?_, ?_⟩
    · rw [hplan]
      simp [List.filter,
        (by decide : (("scale_up" : String) == "scale_up") = true),
        (by decide : (("scale_down" : String) == "scale_up") = false)]
    · intro d hd hact
      rw [hplan] at hd
      rcases List.mem_cons.mp hd with rfl | hd1
      · exact absurd hact hsd
      rcases List.mem_cons.mp hd1 with rfl | hd2
      · exact ⟨rfl, hreq⟩
      · cases hd2
    · intro d hd hact
      rw [hplan] at hd
      rcases List.mem_cons.mp hd with rfl | hd1
      · exact ⟨rfl, rfl, rfl, rfl⟩
      rcases List.mem_cons.mp hd1 with rfl | hd2
      · exact absurd rfl hact
      · cases hd2

/-- The provider a placement selects is one of the keys of the provider
map it was computed from. -/
lemma placement_provider_mem
    (ml : Workload → ProviderData → ℚ) (w : Workload)
    (providers : List (String × ProviderData))
    (p : Placement) (hp : calculate_optimal_placement ml w providers = some p) :
    ∃ nd ∈ providers, nd.1 = p.provider := by
  have hne : providers ≠ [] := by
    intro h; subst h
    simp [calculate_optimal_placement, combined_scores, pyMax] at hp
  obtain ⟨best, hb⟩ := pyMax_combined_some ml w hne
  obtain ⟨nd, hnd_mem, hbest⟩ := pyMax_combined_mem hb
  have hb1 : best.1 = nd.1 := by rw [hbest]
  have hkey : best.1 ∈ providers.map Prod.fst := by
    rw [hb1]; exact List.mem_map_of_mem Prod.fst hnd_mem
  obtain ⟨pd, hl⟩ := lookup_isSome_of_mem_keys hkey
  have heq := calculate_optimal_placement_eq ml w providers hb hl
  have hpR := Option.some.inj (heq.symm.trans hp)
  subst hpR
  exact ⟨nd, hnd_mem, hb1.symm⟩

/-- C6: every change plan emitted for a placement computed over the
engine's provider maps (whose keys are `aws` and `alibaba`) has exactly
one `scale_up` directive, whose desired capacity is
`max(1, cpuCores div 2) ≥ 1`, while every other directive is a
`scale_down` with desired = min = max = 0. -/
theorem C6_single_active_provider
    (ml : Workload → ProviderData → ℚ) (w : Workload)
    (providers : List (String × ProviderData))
    (hkeys : ∀ nd ∈ providers, nd.1 = "aws" ∨ nd.1 = "alibaba")
    (p : Placement) (hp : calculate_optimal_placement ml w providers = some p) :
    ((generate_terraform_changes w p.provider p.region).filter
        (fun d => d.2.action == "scale_up")).length = 1 ∧
    (∀ d ∈ generate_terraform_changes w p.provider p.region,
      d.2.action = "scale_up" →
        d.2.desired_capacity = max 1 (Int.fdiv w.cpu_cores 2) ∧
        1 ≤ d.2.desired_capacity) ∧
    (∀ d ∈ generate_terraform_changes w p.provider p.region,
      d.2.action ≠ "scale_up" →
        d.2.action = "scale_down" ∧ d.2.desired_capacity = 0 ∧
        d.2.min_capacity = 0 ∧ d.2.max_capacity = 0) := by
  obtain ⟨nd, hnd_mem, hname⟩ := placement_provider_mem ml w providers p hp
  have hprov : p.provider = "aws" ∨ p.provider = "alibaba" := by
    rw [← hname]; exact hkeys nd hnd_mem
  exact single_scale_up_of_known_provider w p.provider p.region hprov

/-- Witness for C6 at the default two-provider map. -/
theorem C6_single_active_provider_witness :
    ((∀ nd ∈ [(("aws" : String), PA5), ("alibaba", PB5)],
        nd.1 = "aws" ∨ nd.1 = "alibaba") ∧
     calculate_optimal_placement mlC5 W0 [("aws", PA5), ("alibaba", PB5)] =
       some placementC5) ∧
    (((generate_terraform_changes W0 placementC5.provider placementC5.region).filter
        (fun d => d.2.action == "scale_up")).length = 1 ∧
    (∀ d ∈ generate_terraform_changes W0 placementC5.provider placementC5.region,
      d.2.action = "scale_up" →
        d.2.desired_capacity = max 1 (Int.fdiv W0.cpu_cores 2) ∧
        1 ≤ d.2.desired_capacity) ∧
    (∀ d ∈ generate_terraform_changes W0 placementC5.provider placementC5.region,
      d.2.action ≠ "scale_up" →
        d.2.action = "scale_down" ∧ d.2.desired_capacity = 0 ∧
        d.2.min_capacity = 0 ∧ d.2.max_capacity = 0)) := by
  have hkeys : ∀ nd ∈ [(("aws" : String), PA5), ("alibaba", PB5)],
      nd.1 = "aws" ∨ nd.1 = "alibaba" := by
    intro nd hnd
    rcases List.mem_cons.mp hnd with rfl | hnd'
    · exact Or.inl rfl
    rcases List.mem_cons.mp hnd' with rfl | hnd''
    · exact Or.inr rfl
    · cases hnd''
  have h2 : calculate_optimal_placement mlC5 W0 [("aws", PA5), ("alibaba", PB5)] =
      some placementC5 := by
    norm_num [calculate_optimal_placement, combined_scores, pyMax, pyMaxAux,
      placement_costs, placement_predictions, placement_cost_confidence, other_costs,
      lookupQ, listMax, List.lookup, List.filter, calculate_workload_cost,
      required_instances, PA5, PB5, W0, mlC5, placementC5, Int.fdiv_eq_tdiv,
      eq_false (by decide : ¬ (("alibaba" : String) = "aws")),
      (by decide : (("alibaba" : String) != "aws") = true)]
  exact ⟨⟨hkeys, h2⟩,
    C6_single_active_provider mlC5 W0 [("aws", PA5), ("alibaba", PB5)] hkeys placementC5 h2⟩

/-! ### C7 -/

/-- An already-approved approval item. -/
def approvedItem : PendingItem :=
  .approval { workload_id := "w1", estimated_savings := 0, aws_cost := 0.05,
              alibaba_cost := 0.5, recommended_provider := "aws",
              status := "approved", reason := "r" }

/-- C7 counterexample: `approve_workload` matches the first item with the
given id regardless of its status, so a second call with `approved=false`
flips an already-`approved` item to `rejected` -- the claimed
never-reverts invariant fails for resolved statuses. -/
theorem C7_counterexample :
    approvedItem.status = "approved" ∧
    (approve_workload [approvedItem] "w1" false).map PendingItem.status =
      ["rejected"] := by
  constructor
  · rfl
  · rfl

/-- The pending-list mutations of the source: an `approve_workload` call
(main.py lines 1457-1477) or a drift-monitor switch request append
(main.py lines 1687-1709). -/
inductive PendingOp where
  | approveOp (workload_id : String) (approved : Bool)
  | switchOp (w : RunningWorkload) (new_provider : String) (savings : ℚ)

def applyPendingOp (l : List PendingItem) : PendingOp → List PendingItem
  | .approveOp wid ap => approve_workload l wid ap
  | .switchOp w np s => request_switch_approval l w np s

def applyPendingOps (l : List PendingItem) : List PendingOp → List PendingItem
  | [] => l
  | op :: ops => applyPendingOps (applyPendingOp l op) ops

/-- A resolved status. -/
def resolvedStatus (s : String) : Prop := s = "approved" ∨ s = "rejected"

/-- Placeholder item for positional access. -/
def dummyItem : PendingItem :=
  .approval { workload_id := "", estimated_savings := 0, aws_cost := 0,
              alibaba_cost := 0, recommended_provider := "", status := "",
              reason := "" }

lemma setStatus_status (x : PendingItem) (s : String) :
    (x.setStatus s).status = s := by
  cases x <;> rfl

lemma approve_workload_length (l : List PendingItem) (wid : String) (ap : Bool) :
    (approve_workload l wid ap).length = l.length := by
  induction l with
  | nil => rfl
  | cons x xs ih =>
    unfold approve_workload
    by_cases h : x.workloadId = wid
    · rw [if_pos h]; rfl
    · rw [if_neg h]
      simp [ih]

lemma approve_workload_getD (l : List PendingItem) (wid : String) (ap : Bool) (i : ℕ) :
    (approve_workload l wid ap).getD i dummyItem = l.getD i dummyItem ∨
    (approve_workload l wid ap).getD i dummyItem =
      (l.getD i dummyItem).setStatus (if ap then "approved" else "rejected") := by
  induction l generalizing i with
  | nil => left; rfl
  | cons x xs ih =>
    unfold approve_workload
    by_cases h : x.workloadId = wid
    · rw [if_pos h]
      cases i with
      | zero => right; rfl
      | succ j => left; rfl
    · rw [if_neg h]
      cases i with
      | zero => left; rfl
      | succ j => exact ih j

lemma request_switch_getD (l : List PendingItem) (w : RunningWorkload)
    (np : String) (s : ℚ) (i : ℕ) (hi : i < l.length) :
    (request_switch_approval l w np s).getD i dummyItem = l.getD i dummyItem := by
  unfold request_switch_approval
  rw [List.getD_eq_getElem?_getD, List.getD_eq_getElem?_getD,
    List.getElem?_append_left hi]

lemma applyPendingOp_length (l : List PendingItem) (op : PendingOp) :
    l.length ≤ (applyPendingOp l op).length := by
  cases op with
  | approveOp wid ap => rw [applyPendingOp, approve_workload_length]
  | switchOp w np s =>
    unfold applyPendingOp request_switch_approval
    simp

/-- C7 as amended: under any sequence of `approve_workload` calls and
drift-triggered switch-request appends, an item that is resolved
(`approved` or `rejected`) stays resolved -- it never reverts to a pending
status -- and drift requests only append new records; however a resolved
item's status is not immutable: a later `approve_workload` call with the
same id can overwrite it with the opposite resolved status
(see the counterexample). -/
theorem C7_resolved_stays_resolved
    (ops : List PendingOp) (l : List PendingItem) (i : ℕ)
    (hi : i < l.length) (hres : resolvedStatus ((l.getD i dummyItem).status)) :
    resolvedStatus (((applyPendingOps l ops).getD i dummyItem).status) := by
  induction ops generalizing l with
  | nil => exact hres
  | cons op ops ih =>
    have hi' : i < (applyPendingOp l op).length :=
      lt_of_lt_of_le hi (applyPendingOp_length l op)
    have hres' : resolvedStatus (((applyPendingOp l op).getD i dummyItem).status) := by
      cases op with
      | approveOp wid ap =>
        rcases approve_workload_getD l wid ap i with h | h
        · rw [applyPendingOp, h]; exact hres
        · rw [applyPendingOp, h, setStatus_status]
          cases ap with
          | true => exact Or.inl rfl
          | false => exact Or.inr rfl
      | switchOp w np s =>
        rw [applyPendingOp, request_switch_getD l w np s i hi]
        exact hres
    exact ih (applyPendingOp l op) hi' hres'

/-- Witness for the amended C7: a resolved item stays resolved across a
rejection call and a drift append. -/
theorem C7_resolved_stays_resolved_witness :
    ((0 : ℕ) < [approvedItem].length ∧
     resolvedStatus (([approvedItem].getD 0 dummyItem).status)) ∧
    resolvedStatus (((applyPendingOps [approvedItem]
      [.approveOp "w1" false, .switchOp ⟨"w2", "aws"⟩ "alibaba" 1]).getD 0
        dummyItem).status) := by
  have h1 : (0 : ℕ) < [approvedItem].length := by simp
  have h2 : resolvedStatus (([approvedItem].getD 0 dummyItem).status) := Or.inl rfl
  exact ⟨⟨h1, h2⟩, C7_resolved_stays_resolved
    [.approveOp "w1" false, .switchOp ⟨"w2", "aws"⟩ "alibaba" 1] [approvedItem] 0 h1 h2⟩

/-! ### C8 -/

/-- Engine state for the C8 failing input: the `aws` deployment costs
0.50/hour while `alibaba` costs 0.05/hour, a 0.45/hour saving, far above
the 0.01/hour switch threshold. -/
def stC8 : EngineState :=
  { auto_deploy_enabled := false, approval_threshold := 0.01, cost_threshold := 50,
    aws_simulated_cost := 0.50, alibaba_simulated_cost := 0.05,
    pending_workloads := [] }

/-- The switch-approval item the intended monitor would append. -/
def switchItemC8 : PendingItem :=
  PendingItem.providerSwitch
    { workload_id := "w1", current_provider := "aws", new_provider := "alibaba",
      estimated_savings := 0.45, status := "pending_switch_approval" }

/-- A workload deployed on `aws`. -/
def wC8 : RunningWorkload := { id := "w1", provider := "aws" }

/-- C8 evaluation at the failing input: the switch-savings condition holds
(0.45 > 0.01), yet `_monitor_workload_costs` appends nothing and never
reaches the cost-spike check, because its first statement awaits the
non-awaitable float returned by the synchronous `_get_aws_cost`, raising a
TypeError that the blanket handler swallows. The intended body (the
`await` slip removed) would append the `pending_switch_approval` item and
flag the cost spike, as the spec describes. -/
theorem C8_monitor_dead_code :
    get_aws_cost stC8 - get_alibaba_cost stC8 > 0.01 ∧
    monitor_workload_costs stC8 wC8 = (stC8.pending_workloads, false) ∧
    stC8.pending_workloads = [] ∧
    monitor_workload_costs_intended stC8 wC8 = ([switchItemC8], true) := by
  refine ⟨by norm_num [get_aws_cost, get_alibaba_cost, stC8], rfl, rfl, ?_⟩
  norm_num [monitor_workload_costs_intended, get_aws_cost, get_alibaba_cost,
    request_switch_approval, stC8, wC8, switchItemC8]

/-! ### C9 -/

/-- Any `scale_up` directive of a plan for a workload with
`required_instances = 2` has desired capacity 2. -/
lemma scale_up_capacity (w : Workload) (provider region : String)
    (hreq : required_instances w = 2) :
    ∀ d ∈ generate_terraform_changes w provider region,
      d.2.action = "scale_up" → d.2.desired_capacity = 2 := by
  have hsd : ¬ (("scale_down" : String) = "scale_up") := by decide
  intro d hd hact
  simp only [generate_terraform_changes] at hd
  by_cases h1 : provider = "aws"
  · rw [if_pos h1] at hd
    rcases List.mem_cons.mp hd with rfl | hd1
    · exact hreq
    rcases List.mem_cons.mp hd1 with rfl | hd2
    · exact absurd hact hsd
    · cases hd2
  · rw [if_neg h1] at hd
    by_cases h2 : provider = "alibaba"
    · rw [if_pos h2] at hd
      rcases List.mem_cons.mp hd with rfl | hd1
      · exact absurd hact hsd
      rcases List.mem_cons.mp hd1 with rfl | hd2
      · exact hreq
      · cases hd2
    · rw [if_neg h2] at hd
      cases hd

/-- C9: the deployment path rebuilds the workload from hard-coded
attributes (cpu 4, mem 8, medium priority, 0.5 sensitivities, 24h), so
two approval items with the same workload id -- whatever the originally
submitted workloads looked like -- deploy identically, and every
`scale_up` directive requests exactly 2 instances. -/
theorem C9_deploy_fixed_workload
    (ml : Workload → ProviderData → ℚ)
    (providers : List (String × ProviderData))
    (item1 item2 : ApprovalRequest)
    (hid : item1.workload_id = item2.workload_id) :
    deploy_workload ml providers item1 = deploy_workload ml providers item2 ∧
    (∀ prov reg plan, deploy_workload ml providers item1 = some (prov, reg, plan) →
      ∀ d ∈ plan, d.2.action = "scale_up" → d.2.desired_capacity = 2) := by
  constructor
  · unfold deploy_workload
    rw [hid]
  · intro prov reg plan hdep d hd hact
    unfold deploy_workload at hdep
    dsimp only at hdep
    cases hpl : calculate_optimal_placement ml
        { id := item1.workload_id, cpu_cores := 4, memory_gb := 8,
          priority := "medium", cost_sensitivity := 0.5, latency_sensitivity := 0.5,
          estimated_duration_hours := 24 } providers with
    | none => rw [hpl] at hdep; cases hdep
    | some p =>
      rw [hpl] at hdep
      dsimp only at hdep
      have hinj := Option.some.inj hdep
      have hplan : plan = generate_terraform_changes
          { id := item1.workload_id, cpu_cores := 4, memory_gb := 8,
            priority := "medium", cost_sensitivity := 0.5, latency_sensitivity := 0.5,
            estimated_duration_hours := 24 } p.provider p.region := by
        have := congrArg (fun t => t.2.2) hinj
        exact this.symm
      have hreq : required_instances
          { id := item1.workload_id, cpu_cores := 4, memory_gb := 8,
            priority := "medium", cost_sensitivity := 0.5, latency_sensitivity := 0.5,
            estimated_duration_hours := 24 } = 2 := by
        show max (1 : ℤ) (Int.fdiv 4 2) = 2
        decide
      rw [hplan] at hd
      exact scale_up_capacity _ p.provider p.region hreq d hd hact

/-- Witness for C9: two approval items sharing an id but nothing else. -/
theorem C9_deploy_fixed_workload_witness :
    ({ workload_id := "w1", estimated_savings := 3, aws_cost := 1, alibaba_cost := 2,
       recommended_provider := "alibaba", status := "approved",
       reason := "a" : ApprovalRequest }.workload_id =
     { workload_id := "w1", estimated_savings := 0, aws_cost := 9, alibaba_cost := 7,
       recommended_provider := "aws", status := "pending_approval",
       reason := "b" : ApprovalRequest }.workload_id) ∧
    (deploy_workload mlHalf [("aws", P0)]
        { workload_id := "w1", estimated_savings := 3, aws_cost := 1, alibaba_cost := 2,
          recommended_provider := "alibaba", status := "approved", reason := "a" } =
      deploy_workload mlHalf [("aws", P0)]
        { workload_id := "w1", estimated_savings := 0, aws_cost := 9, alibaba_cost := 7,
          recommended_provider := "aws", status := "pending_approval", reason := "b" } ∧
    (∀ prov reg plan,
      deploy_workload mlHalf [("aws", P0)]
        { workload_id := "w1", estimated_savings := 3, aws_cost := 1, alibaba_cost := 2,
          recommended_provider := "alibaba", status := "approved", reason := "a" } =
        some (prov, reg, plan) →
      ∀ d ∈ plan, d.2.action = "scale_up" → d.2.desired_capacity = 2)) :=
  ⟨rfl, C9_deploy_fixed_workload mlHalf [("aws", P0)]
    { workload_id := "w1", estimated_savings := 3, aws_cost := 1, alibaba_cost := 2,
      recommended_provider := "alibaba", status := "approved", reason := "a" }
    { workload_id := "w1", estimated_savings := 0, aws_cost := 9, alibaba_cost := 7,
      recommended_provider := "aws", status := "pending_approval", reason := "b" }
    rfl⟩

/-! ### C10 -/

/-- An expensive aws snapshot for the C10 divergence scenario. -/
def PC10aws : ProviderData :=
  { region := "ua", cost_per_hour := 0.5, latency_ms := 50, cpu_utilization := 0.5,
    memory_utilization := 0.6, available_instances := 10, spot_available := false,
    credits_available := 0 }

/-- A cheap alibaba snapshot for the C10 divergence scenario. -/
def PC10ali : ProviderData :=
  { region := "ub", cost_per_hour := 0.05, latency_ms := 60, cpu_utilization := 0.4,
    memory_utilization := 0.5, available_instances := 15, spot_available := false,
    credits_available := 0 }

/-- C10: the queued item's `recommended_provider` is `alibaba` exactly when
the raw simulated Alibaba cost is strictly below the raw simulated AWS
cost (otherwise `aws`), independently of the workload; and on a concrete
engine state with telemetry-based snapshots, the combined-score winner of
the decision (`alibaba`) differs from the queued recommendation (`aws`). -/
theorem C10_recommended_provider :
    (∀ (st : EngineState) (w : Workload) (savings : ℚ) (reason : String),
      (queue_for_approval st w savings reason).pending_workloads =
        st.pending_workloads ++ [.approval (queued_item st w savings reason)] ∧
      ((queued_item st w savings reason).recommended_provider = "alibaba" ↔
        st.alibaba_simulated_cost < st.aws_simulated_cost) ∧
      ((queued_item st w savings reason).recommended_provider = "aws" ↔
        ¬ st.alibaba_simulated_cost < st.aws_simulated_cost) ∧
      (∀ (w' : Workload) (savings' : ℚ) (reason' : String),
        (queued_item st w savings reason).recommended_provider =
          (queued_item st w' savings' reason').recommended_provider)) ∧
    ((queued_item stC1 W0 0 "r").recommended_provider = "aws" ∧
     (calculate_optimal_placement mlHalf W0
         [("aws", PC10aws), ("alibaba", PC10ali)]).map Placement.provider =
       some "alibaba" ∧
     ("alibaba" : String) ≠ "aws") := by
  have halibaws : ¬ (("aws" : String) = "alibaba") := by decide
  constructor
  · intro st w savings reason
    refine ⟨rfl, ?_, ?_, ?_⟩
    · by_cases h : st.alibaba_simulated_cost < st.aws_simulated_cost
      · simp [queued_item, get_aws_cost, get_alibaba_cost, h]
      · simp [queued_item, get_aws_cost, get_alibaba_cost, h, halibaws]
    · by_cases h : st.alibaba_simulated_cost < st.aws_simulated_cost
      · simp [queued_item, get_aws_cost, get_alibaba_cost, h,
          (by decide : ¬ (("alibaba" : String) = "aws"))]
      · simp [queued_item, get_aws_cost, get_alibaba_cost, h]
    · intro w' savings' reason'
      rfl
  refine ⟨?_, ?_, by decide⟩
  · norm_num [queued_item, get_aws_cost, get_alibaba_cost, stC1]
  · norm_num [calculate_optimal_placement, combined_scores, pyMax, pyMaxAux,
      placement_costs, placement_predictions, placement_cost_confidence, other_costs,
      lookupQ, listMax, List.lookup, List.filter, calculate_workload_cost,
      required_instances, PC10aws, PC10ali, W0, mlHalf, Int.fdiv_eq_tdiv, Option.map,
      eq_false (by decide : ¬ (("aws" : String) = "alibaba")),
      (by decide : (("aws" : String) != "alibaba") = true),
      (by decide : (("alibaba" : String) == "aws") = false),
      (by decide : (("alibaba" : String) == "alibaba") = true)]
